import Mathlib

/-!
Shallow embedding of the resolver/validation layer of the Employee
Management GraphQL API (`src/server.js`).

Modelling conventions:
* GraphQL argument bags are records of `Option` fields: `none` means the
  argument is absent from the bag, `some s` means it was supplied with
  value `s`.  JavaScript's `!x` on a string argument is true exactly when
  the argument is absent (`undefined`) or the empty string, captured by
  `strFalsy`.
* The persistence adapter (Mongoose/MongoDB) is modelled per the adapter
  contract: a User collection is a `List User`; the Employee collection is
  an association list from the opaque `_id` string to the record.
  `findByIdAndUpdate` is lookup-then-replace returning the new document
  (the `new: true` option); `findByIdAndDelete` removes every document
  with the given id (ids are unique, so at most one); neither runs any
  field validation — Mongoose does not run validators on update by
  default, and the resolvers request none.
* Mongoose strips keys whose value is `undefined` from query filters, so
  an absent `username` in `findOne({ $or: [{ username }, { email }] })`
  leaves an empty clause that matches every document: `clauseMatches`
  returns `true` for an absent field.
* `salary` (GraphQL `Float`) is modelled as `Int`: every numeric literal
  in the code (`1000`) is an integer and the comparisons involved are
  exact on such values.
* bcrypt hashing / verification are opaque function parameters
  (`hash : String → String`, `verify : String → String → Bool`).
* Timestamps (`created_at` / `updated_at`) carry no decision logic in the
  resolvers and are elided from the records.
-/

/-- JavaScript falsiness of an optional string argument:
`!x` is true when the argument is absent or the empty string. -/
def strFalsy : Option String → Bool
  | none => true
  | some s => s.isEmpty

/-- JavaScript `String.prototype.trim`: strip leading and trailing
whitespace (the JS whitespace class restricted to the characters that
can occur here). -/
def jsTrim (s : String) : String :=
  ⟨((s.toList.dropWhile Char.isWhitespace).reverse.dropWhile
      Char.isWhitespace).reverse⟩

/-- The non-emptiness check used by `signup` / `addNewEmployee`:
`!x || x.trim() === ""`. -/
def blankOrMissing : Option String → Bool
  | none => true
  | some s => s.isEmpty || (jsTrim s).isEmpty

/-- Characters admitted by the character class `[^\s@]` of the signup
email regex: anything but whitespace and `@`. -/
def isOkEmailChar (c : Char) : Bool :=
  !c.isWhitespace && c != '@'

/-- The signup email test `/^[^\s@]+@[^\s@]+\.[^\s@]+$/.test(email)`:
the string splits as `x @ t` with `x` a non-empty run of `[^\s@]` chars
and `t` a non-empty run of `[^\s@]` chars containing a dot that is
neither its first nor its last character (so `t = y.z` with `y`, `z`
non-empty).  Since `[^\s@]` excludes `@`, a match forces exactly one `@`
in the whole string. -/
def emailRegexTest (s : String) : Bool :=
  match s.toList.splitOn '@' with
  | [x, t] =>
    !x.isEmpty && x.all isOkEmailChar &&
    t.all isOkEmailChar && (t.drop 1).dropLast.contains '.'
  | _ => false

/-- A `UserInputError`: human-readable message plus the machine-readable
`invalidArgs` list (empty when the code passes none). -/
structure GqlError where
  message : String
  invalidArgs : List String
  deriving DecidableEq, Repr

/-- A stored User document (timestamps elided; `password` holds the
bcrypt hash). -/
structure User where
  username : String
  email : String
  password : String
  deriving DecidableEq, Repr

/-- The GraphQL `User` output type of the schema: it has no `password`
field, so responses never carry the stored hash. -/
structure UserOut where
  username : String
  email : String
  deriving DecidableEq, Repr

/-- Projection of a stored User document through the GraphQL `User`
output type. -/
def userView (u : User) : UserOut :=
  { username := u.username, email := u.email }

/-- One `$or` clause `{ field: v }` of a Mongoose query.  Mongoose
deletes keys whose value is `undefined`, so an absent field leaves the
empty clause `{}`, which matches every document. -/
def clauseMatches (v : Option String) (field : String) : Bool :=
  match v with
  | none => true
  | some s => field == s

/-- `User.findOne({ $or: [{ username }, { email }] })`: the first stored
User matching either clause. -/
def findOneUser (db : List User) (username email : Option String) : Option User :=
  db.find? fun u =>
    clauseMatches username u.username || clauseMatches email u.email

/-- The `login` resolver (`src/server.js` lines 77–91). -/
def login (db : List User) (verify : String → String → Bool)
    (username email password : Option String) : Except GqlError User :=
  if (strFalsy username && strFalsy email) || strFalsy password then
    .error ⟨"Username or email and password are required", ["username/email", "password"]⟩
  else
    match findOneUser db username email with
    | none => .error ⟨"User not found", []⟩
    | some user =>
      if verify (password.getD "") user.password then .ok user
      else .error ⟨"Invalid credentials", []⟩

/-- `login` as observed through GraphQL: the resolver's User document is
serialised through the `User` output type, which strips `password`. -/
def loginGql (db : List User) (verify : String → String → Bool)
    (username email password : Option String) : Except GqlError UserOut :=
  (login db verify username email password).map userView

/-- The `signup` resolver (`src/server.js` lines 116–152).  Returns the
resolver result together with the post-call User collection: every error
path leaves the collection untouched; success appends the new document
(with the hashed password). -/
def signup (db : List User) (hash : String → String)
    (username email password : Option String) :
    Except GqlError User × List User :=
  if blankOrMissing username then
    (.error ⟨"Username is required", ["username"]⟩, db)
  else if blankOrMissing email then
    (.error ⟨"Email is required", ["email"]⟩, db)
  else if !emailRegexTest (email.getD "") then
    (.error ⟨"Invalid email format", ["email"]⟩, db)
  else if strFalsy password || decide ((password.getD "").length < 6) then
    (.error ⟨"Password must be at least 6 characters long", ["password"]⟩, db)
  else if (findOneUser db username email).isSome then
    (.error ⟨"User already exists", ["username", "email"]⟩, db)
  else
    let newUser : User :=
      { username := username.getD "", email := email.getD "",
        password := hash (password.getD "") }
    (.ok newUser, db ++ [newUser])

/-- A stored Employee document (timestamps elided; the `_id` is the key
of the association list, not a field of the record). -/
structure Employee where
  first_name : String
  last_name : String
  email : Option String
  gender : Option String
  designation : String
  salary : Int
  date_of_joining : String
  department : String
  employee_photo : Option String
  deriving DecidableEq, Repr

/-- The Employee collection: association list from the opaque `_id`
string to the document.  Ids are unique in MongoDB; none of the theorems
below needs that invariant explicitly. -/
abbrev EmployeeDB := List (String × Employee)

/-- `Employee.findById` on the collection. -/
def findById : EmployeeDB → String → Option Employee
  | [], _ => none
  | (k, e) :: rest, eid => if k = eid then some e else findById rest eid

/-- Replace the document stored at `eid` (identity on other entries): the
pointwise update the adapter performs on the collection. -/
def setById : EmployeeDB → String → Employee → EmployeeDB
  | [], _, _ => []
  | (k, e) :: rest, eid, x =>
    (if k = eid then (k, x) else (k, e)) :: setById rest eid x

/-- The argument bag `{ ...updateFields }` of `updateEmployeeByEid`:
every field is optional, `none` meaning the key is absent from the bag. -/
structure UpdateFields where
  first_name : Option String := none
  last_name : Option String := none
  email : Option String := none
  gender : Option String := none
  designation : Option String := none
  salary : Option Int := none
  date_of_joining : Option String := none
  department : Option String := none
  employee_photo : Option String := none
  deriving DecidableEq, Repr

/-- The `$set` semantics of `findByIdAndUpdate`: each key present in the
bag overwrites the stored field; absent keys leave it untouched.  No
validation is performed (Mongoose runs no validators on update by
default and the resolver requests none). -/
def applyUpdate (e : Employee) (u : UpdateFields) : Employee :=
  { first_name := u.first_name.getD e.first_name
    last_name := u.last_name.getD e.last_name
    email := match u.email with | none => e.email | some s => some s
    gender := match u.gender with | none => e.gender | some s => some s
    designation := u.designation.getD e.designation
    salary := u.salary.getD e.salary
    date_of_joining := u.date_of_joining.getD e.date_of_joining
    department := u.department.getD e.department
    employee_photo := match u.employee_photo with | none => e.employee_photo | some s => some s }

/-- The `updateEmployeeByEid` resolver (`src/server.js` lines 178–187).
`Employee.findByIdAndUpdate(eid, updateFields, { new: true })` is lookup,
`$set`-merge and return-the-new-document; it yields null when no document
has that id, which the resolver turns into an error.  Returns the
resolver result with the post-call collection. -/
def updateEmployeeByEid (db : EmployeeDB) (eid : Option String)
    (u : UpdateFields) : Except GqlError Employee × EmployeeDB :=
  if strFalsy eid then
    (.error ⟨"Employee ID is required", ["eid"]⟩, db)
  else
    match findById db (eid.getD "") with
    | none => (.error ⟨"Employee not found", ["eid"]⟩, db)
    | some e =>
      let updated := applyUpdate e u
      (.ok updated, setById db (eid.getD "") updated)

/-- The `deleteEmployeeByEid` resolver (`src/server.js` lines 188–194).
`Employee.findByIdAndDelete(eid)` removes the document with that id if
one exists; the resolver returns the confirmation string either way. -/
def deleteEmployeeByEid (db : EmployeeDB) (eid : Option String) :
    Except GqlError String × EmployeeDB :=
  if strFalsy eid then
    (.error ⟨"Employee ID is required", ["eid"]⟩, db)
  else
    (.ok "Employee deleted successfully", db.filter fun p => !(p.1 == eid.getD ""))

/-- The `searchEmployeeByEid` resolver (`src/server.js` lines 95–102):
after the eid presence check it returns whatever `findById` yields —
`none` on a miss is a null result, not an error. -/
def searchEmployeeByEid (db : EmployeeDB) (eid : Option String) :
    Except GqlError (Option Employee) :=
  if strFalsy eid then
    .error ⟨"Employee ID is required", ["eid"]⟩
  else
    .ok (findById db (eid.getD ""))

/-- The argument bag of `addNewEmployee`, mirroring the GraphQL argument
list (all optional at the resolver level: the resolver re-checks
presence itself). -/
structure AddArgs where
  first_name : Option String := none
  last_name : Option String := none
  email : Option String := none
  gender : Option String := none
  designation : Option String := none
  salary : Option Int := none
  date_of_joining : Option String := none
  department : Option String := none
  employee_photo : Option String := none
  deriving DecidableEq, Repr

/-- The check `salary === undefined || salary < 1000`. -/
def salaryInvalid : Option Int → Bool
  | none => true
  | some v => decide (v < 1000)

/-- `new Employee(args)`: the document built from all supplied fields
(required fields have been validated present when this is reached). -/
def mkEmployee (a : AddArgs) : Employee :=
  { first_name := a.first_name.getD ""
    last_name := a.last_name.getD ""
    email := a.email
    gender := a.gender
    designation := a.designation.getD ""
    salary := a.salary.getD 0
    date_of_joining := a.date_of_joining.getD ""
    department := a.department.getD ""
    employee_photo := a.employee_photo }

/-- The `addNewEmployee` resolver (`src/server.js` lines 154–177).
`newId` stands for the `_id` MongoDB assigns on insert.  Returns the
resolver result with the post-call collection. -/
def addNewEmployee (db : EmployeeDB) (newId : String) (a : AddArgs) :
    Except GqlError Employee × EmployeeDB :=
  if blankOrMissing a.first_name then
    (.error ⟨"First name is required", ["first_name"]⟩, db)
  else if blankOrMissing a.last_name then
    (.error ⟨"Last name is required", ["last_name"]⟩, db)
  else if blankOrMissing a.designation then
    (.error ⟨"Designation is required", ["designation"]⟩, db)
  else if salaryInvalid a.salary then
    (.error ⟨"Salary must be at least 1000", ["salary"]⟩, db)
  else if strFalsy a.date_of_joining then
    (.error ⟨"Date of joining is required", ["date_of_joining"]⟩, db)
  else if blankOrMissing a.department then
    (.error ⟨"Department is required", ["department"]⟩, db)
  else
    let newEmployee := mkEmployee a
    (.ok newEmployee, db ++ [(newId, newEmployee)])

/-! ### Shared fixtures and helper lemmas -/

/-- A stored user for concrete instances. -/
def aliceUser : User :=
  { username := "alice", email := "a@b.c", password := "HASH" }

/-- A one-user collection. -/
def aliceDb : List User := [aliceUser]

/-- A valid stored employee for concrete instances. -/
def empA : Employee :=
  { first_name := "A", last_name := "B", email := none, gender := none,
    designation := "Eng", salary := 2000, date_of_joining := "2024-01-01",
    department := "RD", employee_photo := none }

/-- A one-employee collection, id `"e1"`. -/
def dbA : EmployeeDB := [("e1", empA)]

/-- A fully valid `addNewEmployee` argument bag. -/
def sampleArgs : AddArgs :=
  { first_name := some "A", last_name := some "B", designation := some "Eng",
    salary := some 2000, date_of_joining := some "2024-01-01",
    department := some "RD" }

/-- A string whose trim is empty fails the non-emptiness check. -/
theorem blankOrMissing_of_trim (s : String) (hs : jsTrim s = "") :
    blankOrMissing (some s) = true := by
  simp [blankOrMissing, hs]
  exact Or.inr rfl

/-- Replacing the document stored at a present key makes lookup return
the replacement. -/
theorem findById_setById (db : EmployeeDB) (k : String) (e x : Employee)
    (h : findById db k = some e) : findById (setById db k x) k = some x := by
  induction db with
  | nil => simp [findById] at h
  | cons p rest ih =>
    obtain ⟨k0, e0⟩ := p
    show findById ((if k0 = k then (k0, x) else (k0, e0)) :: setById rest k x) k = some x
    by_cases hk : k0 = k
    · rw [if_pos hk]
      simp [findById, hk]
    · rw [if_neg hk]
      simp [findById, hk] at h ⊢
      exact ih h

/-! ### C1: signup validation order -/

/-- C1. `signup` validates in the fixed order username non-empty →
email non-empty → email format → password length ≥ 6; the first failing
check immediately yields the `UserInputError` naming exactly that field
(for all values of the later arguments, so no later check is performed),
and in particular a short password with valid username and email fails
citing `password`. -/
theorem signup_validation_order (db : List User) (hash : String → String)
    (username email password : Option String) :
    (blankOrMissing username = true →
      signup db hash username email password =
        (.error ⟨"Username is required", ["username"]⟩, db)) ∧
    (blankOrMissing username = false → blankOrMissing email = true →
      signup db hash username email password =
        (.error ⟨"Email is required", ["email"]⟩, db)) ∧
    (blankOrMissing username = false → blankOrMissing email = false →
      emailRegexTest (email.getD "") = false →
      signup db hash username email password =
        (.error ⟨"Invalid email format", ["email"]⟩, db)) ∧
    (blankOrMissing username = false → blankOrMissing email = false →
      emailRegexTest (email.getD "") = true →
      (strFalsy password = true ∨ (password.getD "").length < 6) →
      signup db hash username email password =
        (.error ⟨"Password must be at least 6 characters long", ["password"]⟩, db)) := by
  refine ⟨fun h1 => ?_, fun h1 h2 => ?_, fun h1 h2 h3 => ?_, fun h1 h2 h3 h4 => ?_⟩
  · simp [signup, h1]
  · simp [signup, h1, h2]
  · simp [signup, h1, h2, h3]
  · rcases h4 with h4 | h4 <;> simp [signup, h1, h2, h3, h4]

/-- C1 witness: a valid username and email with a 3-character password
fail citing `password`. -/
theorem signup_validation_order_witness :
    signup [] (fun s => s) (some "alice") (some "a@b.c") (some "abc") =
      (.error ⟨"Password must be at least 6 characters long", ["password"]⟩, []) :=
  (signup_validation_order [] (fun s => s) (some "alice") (some "a@b.c")
      (some "abc")).2.2.2 (by decide) (by decide) (by decide) (Or.inr (by decide))

/-! ### C10: whitespace-only strings count as empty -/

/-- C10. The non-emptiness checks are trim-based: a username or email of
only whitespace makes `signup` fail naming that field, and a
first_name / last_name / designation / department of only whitespace
makes `addNewEmployee` fail naming that field (given that the checks
before it in the fail-fast order pass). -/
theorem whitespace_only_rejected (s : String) (hs : jsTrim s = "")
    (db : List User) (hash : String → String) (email password : Option String)
    (u : Option String) (hu : blankOrMissing u = false)
    (edb : EmployeeDB) (newId : String) (a : AddArgs) :
    (signup db hash (some s) email password =
      (.error ⟨"Username is required", ["username"]⟩, db)) ∧
    (signup db hash u (some s) password =
      (.error ⟨"Email is required", ["email"]⟩, db)) ∧
    (addNewEmployee edb newId { a with first_name := some s } =
      (.error ⟨"First name is required", ["first_name"]⟩, edb)) ∧
    (blankOrMissing a.first_name = false →
      addNewEmployee edb newId { a with last_name := some s } =
        (.error ⟨"Last name is required", ["last_name"]⟩, edb)) ∧
    (blankOrMissing a.first_name = false → blankOrMissing a.last_name = false →
      addNewEmployee edb newId { a with designation := some s } =
        (.error ⟨"Designation is required", ["designation"]⟩, edb)) ∧
    (blankOrMissing a.first_name = false → blankOrMissing a.last_name = false →
      blankOrMissing a.designation = false → salaryInvalid a.salary = false →
      strFalsy a.date_of_joining = false →
      addNewEmployee edb newId { a with department := some s } =
        (.error ⟨"Department is required", ["department"]⟩, edb)) := by
  have hb := blankOrMissing_of_trim s hs
  refine ⟨?_, ?_, ?_, fun h1 => ?_, fun h1 h2 => ?_, fun h1 h2 h3 h4 h5 => ?_⟩
  · simp [signup, hb]
  · simp [signup, hu, hb]
  · simp [addNewEmployee, hb]
  · simp [addNewEmployee, h1, hb]
  · simp [addNewEmployee, h1, h2, hb]
  · simp [addNewEmployee, h1, h2, h3, h4, h5, hb]

/-- C10 witness: a single-space username is rejected by `signup`, and a
single-space department is rejected by `addNewEmployee`. -/
theorem whitespace_only_rejected_witness :
    signup [] (fun s => s) (some " ") (some "a@b.c") (some "abcdef") =
      (.error ⟨"Username is required", ["username"]⟩, []) ∧
    addNewEmployee [] "id1" { sampleArgs with department := some " " } =
      (.error ⟨"Department is required", ["department"]⟩, []) := by
  have h := whitespace_only_rejected " " (by decide) [] (fun s => s)
    (some "a@b.c") (some "abcdef") (some "x") (by decide) [] "id1" sampleArgs
  exact ⟨h.1, h.2.2.2.2.2 (by decide) (by decide) (by decide) (by decide) (by decide)⟩

/-! ### C3: login result and password stripping -/

/-- C3. When the argument guard passes and a User is found, `login`
returns that User through the GraphQL `User` output type — which carries
only `username` and `email`, never the password — if the supplied
password verifies against the stored hash, and fails with the
`Invalid credentials` error on mismatch.  The third conjunct records
that the serialised result is independent of the stored password. -/
theorem login_result (db : List User) (verify : String → String → Bool)
    (username email password : Option String) (u : User)
    (hguard : ((strFalsy username && strFalsy email) || strFalsy password) = false)
    (hfind : findOneUser db username email = some u) :
    (verify (password.getD "") u.password = true →
      loginGql db verify username email password = .ok (userView u)) ∧
    (verify (password.getD "") u.password = false →
      loginGql db verify username email password =
        .error ⟨"Invalid credentials", []⟩) ∧
    (∀ p : String, userView { u with password := p } = userView u) := by
  refine ⟨fun hv => ?_, fun hv => ?_, fun p => rfl⟩ <;>
    simp [loginGql, login, hguard, hfind, hv, Except.map]

/-- C3 witness: the stored user `alice` exists with a different
password, so `login` with the wrong password fails with the
`Invalid credentials` error. -/
theorem login_result_witness :
    loginGql aliceDb (fun p h => p == h) (some "alice") none (some "wrong") =
      .error ⟨"Invalid credentials", []⟩ :=
  (login_result aliceDb (fun p h => p == h) (some "alice") none (some "wrong")
    aliceUser (by decide) (by decide)).2.1 (by decide)

/-! ### C4: signup on an existing user -/

/-- C4. When all four validation checks pass but a stored User already
matches the username-or-email query, `signup` fails with the
`User already exists` error and leaves the collection unchanged; and the
whole call is independent of the hashing function, so no hash is
computed on this path. -/
theorem signup_already_exists (db : List User) (hash : String → String)
    (username email password : Option String)
    (h1 : blankOrMissing username = false)
    (h2 : blankOrMissing email = false)
    (h3 : emailRegexTest (email.getD "") = true)
    (h4 : strFalsy password = false)
    (h5 : ¬((password.getD "").length < 6))
    (h6 : (findOneUser db username email).isSome = true) :
    signup db hash username email password =
      (.error ⟨"User already exists", ["username", "email"]⟩, db) ∧
    ∀ hash2 : String → String,
      signup db hash2 username email password =
        signup db hash username email password := by
  have key : ∀ hsh : String → String,
      signup db hsh username email password =
        (.error ⟨"User already exists", ["username", "email"]⟩, db) := by
    intro hsh
    simp [signup, h1, h2, h3, h4, h5, h6]
  exact ⟨key hash, fun hash2 => (key hash2).trans (key hash).symm⟩

/-- C4 witness: signing up with `alice`'s username and email again fails
with the `User already exists` error and the collection is unchanged. -/
theorem signup_already_exists_witness :
    signup aliceDb (fun s => s) (some "alice") (some "a@b.c") (some "abcdef") =
      (.error ⟨"User already exists", ["username", "email"]⟩, aliceDb) :=
  (signup_already_exists aliceDb (fun s => s) (some "alice") (some "a@b.c")
    (some "abcdef") (by decide) (by decide) (by decide) (by decide)
    (by decide) (by decide)).1

/-! ### C5: delete is idempotent -/

/-- C5. For a non-absent eid, `deleteEmployeeByEid` returns the
confirmation message whether or not a document with that id exists, and
calling it again on the resulting collection succeeds again without
changing anything (the second call is a no-op). -/
theorem delete_idempotent (db : EmployeeDB) (eid : Option String)
    (h : strFalsy eid = false) :
    (deleteEmployeeByEid db eid).1 = .ok "Employee deleted successfully" ∧
    deleteEmployeeByEid (deleteEmployeeByEid db eid).2 eid =
      (.ok "Employee deleted successfully", (deleteEmployeeByEid db eid).2) := by
  simp [deleteEmployeeByEid, h, List.filter_filter]

/-- C5 witness: deleting `"e1"` from the one-employee collection
succeeds, and deleting it again succeeds as a no-op. -/
theorem delete_idempotent_witness :
    (deleteEmployeeByEid dbA (some "e1")).1 =
      .ok "Employee deleted successfully" ∧
    deleteEmployeeByEid (deleteEmployeeByEid dbA (some "e1")).2 (some "e1") =
      (.ok "Employee deleted successfully",
        (deleteEmployeeByEid dbA (some "e1")).2) :=
  delete_idempotent dbA (some "e1") (by decide)

/-! ### C6: update on a missing id fails with NotFound, repeatably -/

/-- C6. For a non-absent eid with no stored document,
`updateEmployeeByEid` fails with the `Employee not found` error and
leaves the collection unchanged, so repeating the call fails the same
way — in contrast to delete, which succeeds on a miss. -/
theorem update_miss_notfound (db : EmployeeDB) (eid : Option String)
    (u : UpdateFields)
    (h1 : strFalsy eid = false) (h2 : findById db (eid.getD "") = none) :
    updateEmployeeByEid db eid u =
      (.error ⟨"Employee not found", ["eid"]⟩, db) ∧
    updateEmployeeByEid (updateEmployeeByEid db eid u).2 eid u =
      (.error ⟨"Employee not found", ["eid"]⟩, db) := by
  have key : updateEmployeeByEid db eid u =
      (.error ⟨"Employee not found", ["eid"]⟩, db) := by
    simp [updateEmployeeByEid, h1, h2]
  exact ⟨key, by rw [key]; exact key⟩

/-- C6 witness: updating the absent id `"zz"` fails with the
`Employee not found` error both times. -/
theorem update_miss_notfound_witness :
    updateEmployeeByEid dbA (some "zz") {} =
      (.error ⟨"Employee not found", ["eid"]⟩, dbA) ∧
    updateEmployeeByEid (updateEmployeeByEid dbA (some "zz") {}).2
        (some "zz") {} =
      (.error ⟨"Employee not found", ["eid"]⟩, dbA) :=
  update_miss_notfound dbA (some "zz") {} (by decide) (by decide)

/-! ### C7: update touches only the supplied fields -/

/-- C7. For a non-absent eid with a stored document, the update applies
the `$set` merge of the supplied fields, stores the post-update document
under the same id and returns it; every field absent from the argument
bag keeps its previous value. -/
theorem update_frame (db : EmployeeDB) (eid : Option String)
    (u : UpdateFields) (e : Employee)
    (h1 : strFalsy eid = false) (h2 : findById db (eid.getD "") = some e) :
    updateEmployeeByEid db eid u =
      (.ok (applyUpdate e u), setById db (eid.getD "") (applyUpdate e u)) ∧
    findById (updateEmployeeByEid db eid u).2 (eid.getD "") =
      some (applyUpdate e u) ∧
    (u.first_name = none → (applyUpdate e u).first_name = e.first_name) ∧
    (u.last_name = none → (applyUpdate e u).last_name = e.last_name) ∧
    (u.email = none → (applyUpdate e u).email = e.email) ∧
    (u.gender = none → (applyUpdate e u).gender = e.gender) ∧
    (u.designation = none → (applyUpdate e u).designation = e.designation) ∧
    (u.salary = none → (applyUpdate e u).salary = e.salary) ∧
    (u.date_of_joining = none →
      (applyUpdate e u).date_of_joining = e.date_of_joining) ∧
    (u.department = none → (applyUpdate e u).department = e.department) ∧
    (u.employee_photo = none →
      (applyUpdate e u).employee_photo = e.employee_photo) := by
  have key : updateEmployeeByEid db eid u =
      (.ok (applyUpdate e u), setById db (eid.getD "") (applyUpdate e u)) := by
    simp [updateEmployeeByEid, h1, h2]
  refine ⟨key, ?_, ?_, ?_, ?_, ?_, ?_, ?_, ?_, ?_, ?_⟩
  · rw [key]
    exact findById_setById db (eid.getD "") e (applyUpdate e u) h2
  all_goals intro hf
  all_goals simp [applyUpdate, hf]

/-- C7 witness: updating only `designation` on the stored employee keeps
`first_name` (and returns the post-update document). -/
theorem update_frame_witness :
    updateEmployeeByEid dbA (some "e1") { designation := some "Mgr" } =
      (.ok (applyUpdate empA { designation := some "Mgr" }),
        setById dbA "e1" (applyUpdate empA { designation := some "Mgr" })) ∧
    (applyUpdate empA { designation := some "Mgr" }).first_name =
      empA.first_name := by
  have h := update_frame dbA (some "e1") { designation := some "Mgr" } empA
    (by decide) (by decide)
  exact ⟨h.1, h.2.2.1 rfl⟩

/-! ### C8: search returns null, not an error, on a miss -/

/-- C8. `searchEmployeeByEid` fails with the `Employee ID is required`
error when eid is absent; otherwise it returns whatever the lookup
yields — the stored Employee when one exists, and a null result (`none`
inside `.ok`, not an error) when none does. -/
theorem search_miss_is_null (db : EmployeeDB) (eid : Option String) :
    (strFalsy eid = true →
      searchEmployeeByEid db eid =
        .error ⟨"Employee ID is required", ["eid"]⟩) ∧
    (strFalsy eid = false →
      searchEmployeeByEid db eid = .ok (findById db (eid.getD ""))) ∧
    (strFalsy eid = false → findById db (eid.getD "") = none →
      searchEmployeeByEid db eid = .ok none) := by
  refine ⟨fun h => ?_, fun h => ?_, fun h hm => ?_⟩ <;>
    simp [searchEmployeeByEid, h]
  rw [hm]

/-- C8 witness: an absent eid is an error, while looking up the missing
id `"zz"` succeeds with a null result. -/
theorem search_miss_is_null_witness :
    searchEmployeeByEid dbA none =
      .error ⟨"Employee ID is required", ["eid"]⟩ ∧
    searchEmployeeByEid dbA (some "zz") = .ok none :=
  ⟨(search_miss_is_null dbA none).1 (by decide),
   (search_miss_is_null dbA (some "zz")).2.2 (by decide) (by decide)⟩

/-! ### C9: addNewEmployee salary floor and success path -/

/-- C9. With non-empty first_name, last_name and designation, a supplied
salary below 1000 makes `addNewEmployee` fail with the error citing
`salary` and persists nothing; with every required field valid (salary
supplied and ≥ 1000 included), the new Employee built from all supplied
fields is appended to the collection and returned. -/
theorem addNewEmployee_salary_floor (db : EmployeeDB) (newId : String)
    (a : AddArgs)
    (h1 : blankOrMissing a.first_name = false)
    (h2 : blankOrMissing a.last_name = false)
    (h3 : blankOrMissing a.designation = false) :
    (∀ v : Int, a.salary = some v → v < 1000 →
      addNewEmployee db newId a =
        (.error ⟨"Salary must be at least 1000", ["salary"]⟩, db)) ∧
    (∀ v : Int, a.salary = some v → 1000 ≤ v →
      strFalsy a.date_of_joining = false →
      blankOrMissing a.department = false →
      addNewEmployee db newId a =
        (.ok (mkEmployee a), db ++ [(newId, mkEmployee a)])) := by
  constructor
  · intro v hv hlt
    have hs : salaryInvalid a.salary = true := by
      rw [hv]
      simpa [salaryInvalid] using hlt
    simp [addNewEmployee, h1, h2, h3, hs]
  · intro v hv hge hdate hdept
    have hs : salaryInvalid a.salary = false := by
      rw [hv]
      simp [salaryInvalid]
      omega
    simp [addNewEmployee, h1, h2, h3, hs, hdate, hdept]

/-- C9 witness: the spec scenario — valid names but salary 500 — fails
citing `salary` and persists nothing. -/
theorem addNewEmployee_salary_floor_witness :
    addNewEmployee [] "id1" { sampleArgs with salary := some 500 } =
      (.error ⟨"Salary must be at least 1000", ["salary"]⟩, []) :=
  (addNewEmployee_salary_floor [] "id1" { sampleArgs with salary := some 500 }
    (by decide) (by decide) (by decide)).1 500 rfl (by decide)

/-! ### C2: partial updates are not validated -/

/-- An update bag that sets the required field `first_name` to the empty
string. -/
def blankFirstNameBag : UpdateFields := { first_name := some "" }

/-- C2 counterexample: updating the stored employee with
`{ first_name: "" }` succeeds, and the persisted record now has an empty
`first_name` — the update path enforces no required-field constraint. -/
theorem update_persists_empty_required_field :
    (updateEmployeeByEid dbA (some "e1") blankFirstNameBag).1 =
      .ok { empA with first_name := "" } ∧
    (findById (updateEmployeeByEid dbA (some "e1") blankFirstNameBag).2
        "e1").map (fun e => e.first_name) = some "" := by
  constructor <;> rfl

/-- C2 amended. `updateEmployeeByEid` performs no validation on the
supplied fields: for a non-absent eid with a stored document, every
field present in the argument bag — required or not, empty or not — is
persisted verbatim in the stored record (so the creation-time
required-field constraints are not re-established by updates). -/
theorem update_applies_fields_unvalidated (db : EmployeeDB)
    (eid : Option String) (u : UpdateFields) (e : Employee)
    (h1 : strFalsy eid = false) (h2 : findById db (eid.getD "") = some e) :
    findById (updateEmployeeByEid db eid u).2 (eid.getD "") =
      some (applyUpdate e u) ∧
    (∀ s : String, u.first_name = some s → (applyUpdate e u).first_name = s) ∧
    (∀ s : String, u.last_name = some s → (applyUpdate e u).last_name = s) ∧
    (∀ s : String, u.designation = some s →
      (applyUpdate e u).designation = s) ∧
    (∀ v : Int, u.salary = some v → (applyUpdate e u).salary = v) ∧
    (∀ s : String, u.date_of_joining = some s →
      (applyUpdate e u).date_of_joining = s) ∧
    (∀ s : String, u.department = some s →
      (applyUpdate e u).department = s) := by
  have key : (updateEmployeeByEid db eid u).2 =
      setById db (eid.getD "") (applyUpdate e u) := by
    simp [updateEmployeeByEid, h1, h2]
  refine ⟨?_, ?_, ?_, ?_, ?_, ?_, ?_⟩
  · rw [key]
    exact findById_setById db (eid.getD "") e (applyUpdate e u) h2
  all_goals intro v hf
  all_goals simp [applyUpdate, hf]

/-- C2 amended witness: the empty first_name supplied in the bag is the
first_name of the stored post-update record. -/
theorem update_applies_fields_unvalidated_witness :
    findById (updateEmployeeByEid dbA (some "e1") blankFirstNameBag).2 "e1" =
      some (applyUpdate empA blankFirstNameBag) ∧
    (applyUpdate empA blankFirstNameBag).first_name = "" := by
  have h := update_applies_fields_unvalidated dbA (some "e1")
    blankFirstNameBag empA (by decide) (by decide)
  exact ⟨h.1, h.2.1 "" rfl⟩
